import Mathlib

/-!
Verification development for the SGBC library-circulation system (`app.py`).

The Python source is shallowly embedded below:
* SQLite tables become lists of row structures inside a `DB` record;
* the Streamlit button handlers become pure state-transition functions
  `DB → args → Option (DB × outcome)` (`none` models an uncaught Python
  exception aborting the handler before any commit);
* `datetime` values become a calendar record `PyDateTime`; CPython's
  ordinal arithmetic (`_ymd2ord` / `_ord2ymd`), `timedelta` addition,
  `str()` / sqlite-adapter formatting (`isoformat(' ')`) and
  `strptime('%Y-%m-%d')` are modelled from CPython's `datetime` module,
  which the source uses;
* SQLite TEXT comparison (BINARY collation) and Python string comparison
  become code-point lexicographic comparison on `List Char`;
* `hashlib.sha256(...).hexdigest()` is modelled by a FIPS 180-4 SHA-256
  over byte lists with `% 2^32` arithmetic.
-/

namespace SGBC

/-! ## String comparison (Python `<`/`>=` on str, SQLite BINARY collation) -/

/-- Lexicographic strict order on code points, as Python string `<` and
SQLite BINARY TEXT comparison behave on the ASCII date strings involved. -/
def lexLtChars : List Char → List Char → Bool
  | [], [] => false
  | [], _ :: _ => true
  | _ :: _, [] => false
  | a :: as, b :: bs => if a < b then true else if b < a then false else lexLtChars as bs

def strLt (a b : String) : Bool := lexLtChars a.data b.data

/-- Python `a >= b` on strings (total order, so `¬ (a < b)`). -/
def strGe (a b : String) : Bool := !(strLt a b)

/-! ## Decimal formatting helpers (zero padding used by `strftime`/`isoformat`) -/

def padZ (w n : Nat) : String :=
  let s := toString n
  String.mk (List.replicate (w - s.length) '0') ++ s

/-! ## CPython calendar arithmetic (`datetime._ymd2ord`, `datetime._ord2ymd`) -/

def DAYS_IN_MONTH (m : Nat) : Nat :=
  [31, 28, 31, 30, 31, 30, 31, 31, 30, 31, 30, 31].getD (m - 1) 0

def DAYS_BEFORE_MONTH (m : Nat) : Nat :=
  [0, 31, 59, 90, 120, 151, 181, 212, 243, 273, 304, 334].getD (m - 1) 0

def isLeap (y : Nat) : Bool := y % 4 == 0 && (y % 100 != 0 || y % 400 == 0)

def daysBeforeYear (y : Nat) : Nat :=
  let p := y - 1
  p * 365 + p / 4 - p / 100 + p / 400

/-- CPython `_ymd2ord`: proleptic-Gregorian ordinal, day 1 = 0001-01-01. -/
def ymd2ord (y m d : Nat) : Nat :=
  daysBeforeYear y + DAYS_BEFORE_MONTH m + (if 2 < m && isLeap y then 1 else 0) + d

/-- CPython `_ord2ymd`: inverse of `ymd2ord` on valid ordinals. -/
def ord2ymd (nn : Nat) : Nat × Nat × Nat :=
  let n0 := nn - 1
  let n400 := n0 / 146097
  let r400 := n0 % 146097
  let n100 := r400 / 36524
  let r100 := r400 % 36524
  let n4 := r100 / 1461
  let r4 := r100 % 1461
  let n1 := r4 / 365
  let n := r4 % 365
  let year := n400 * 400 + 1 + n100 * 100 + n4 * 4 + n1
  if n1 == 4 || n100 == 4 then (year - 1, 12, 31)
  else
    let leap := n1 == 3 && (n4 != 24 || n100 == 3)
    let month0 := (n + 50) >>> 5
    let preceding := DAYS_BEFORE_MONTH month0 + (if 2 < month0 && leap then 1 else 0)
    if n < preceding then
      let month := month0 - 1
      let preceding2 := preceding - (DAYS_IN_MONTH month + (if month == 2 && leap then 1 else 0))
      (year, month, n - preceding2 + 1)
    else
      (year, month0, n - preceding + 1)

/-! ## `datetime.datetime` values -/

structure PyDateTime where
  year : Nat
  month : Nat
  day : Nat
  hour : Nat
  minute : Nat
  second : Nat
  microsecond : Nat
  deriving DecidableEq

def usPerDay : Nat := 86400000000

def pyToOrd (d : PyDateTime) : Nat := ymd2ord d.year d.month d.day

/-- Microseconds on the linear timeline (ordinal day + time of day);
Python comparison and subtraction of datetimes coincide with this encoding. -/
def pyToUs (d : PyDateTime) : Nat :=
  (pyToOrd d - 1) * usPerDay + ((d.hour * 60 + d.minute) * 60 + d.second) * 1000000 + d.microsecond

/-- `d + timedelta(days = k)`: the time of day is unchanged, the ordinal advances. -/
def pyAddDays (d : PyDateTime) (k : Nat) : PyDateTime :=
  match ord2ymd (pyToOrd d + k) with
  | (y, m, dd) => { d with year := y, month := m, day := dd }

/-- `str(d)` and the sqlite3 datetime adapter, both `d.isoformat(' ')`:
`YYYY-MM-DD HH:MM:SS` with a `.ffffff` suffix only when microseconds are nonzero. -/
def pyDatetimeStr (d : PyDateTime) : String :=
  padZ 4 d.year ++ "-" ++ padZ 2 d.month ++ "-" ++ padZ 2 d.day ++ " " ++
  padZ 2 d.hour ++ ":" ++ padZ 2 d.minute ++ ":" ++ padZ 2 d.second ++
  (if d.microsecond == 0 then "" else "." ++ padZ 6 d.microsecond)

/-- `d.strftime('%Y-%m-%d')`. -/
def strftimeYmd (d : PyDateTime) : String :=
  padZ 4 d.year ++ "-" ++ padZ 2 d.month ++ "-" ++ padZ 2 d.day

/-- `d.strftime('%d/%m/%Y')`. -/
def strftimeDmY (d : PyDateTime) : String :=
  padZ 2 d.day ++ "/" ++ padZ 2 d.month ++ "/" ++ padZ 4 d.year

/-! ## `datetime.strptime(s, '%Y-%m-%d')`

CPython `_strptime` compiles the format to the regex
`(?P<Y>\d\d\d\d)-(?P<m>1[0-2]|0[1-9]|[1-9])-(?P<d>3[01]|[12]\d|0[1-9]|[1-9])`,
matches it at the start of the string, and raises `ValueError`
("unconverted data remains") unless the match consumes the whole string;
the `datetime` constructor then validates the field ranges. -/

def isDigitC (c : Char) : Bool := '0' ≤ c && c ≤ '9'

def digitVal (c : Char) : Nat := c.toNat - 48

def takeYear4 : List Char → Option (Nat × List Char)
  | a :: b :: c :: d :: rest =>
    if isDigitC a && isDigitC b && isDigitC c && isDigitC d then
      some (((digitVal a * 10 + digitVal b) * 10 + digitVal c) * 10 + digitVal d, rest)
    else none
  | _ => none

/-- Regex alternation `1[0-2]|0[1-9]|[1-9]` for `%m`. -/
def takeMonth : List Char → Option (Nat × List Char)
  | a :: b :: rest =>
    if a == '1' && ('0' ≤ b && b ≤ '2') then some (10 + digitVal b, rest)
    else if a == '0' && ('1' ≤ b && b ≤ '9') then some (digitVal b, rest)
    else if '1' ≤ a && a ≤ '9' then some (digitVal a, b :: rest)
    else none
  | [a] => if '1' ≤ a && a ≤ '9' then some (digitVal a, []) else none
  | [] => none

/-- Regex alternation `3[01]|[12]\d|0[1-9]|[1-9]` for `%d`. -/
def takeDay : List Char → Option (Nat × List Char)
  | a :: b :: rest =>
    if a == '3' && (b == '0' || b == '1') then some (30 + digitVal b, rest)
    else if (a == '1' || a == '2') && isDigitC b then some (digitVal a * 10 + digitVal b, rest)
    else if a == '0' && ('1' ≤ b && b ≤ '9') then some (digitVal b, rest)
    else if '1' ≤ a && a ≤ '9' then some (digitVal a, b :: rest)
    else none
  | [a] => if '1' ≤ a && a ≤ '9' then some (digitVal a, []) else none
  | [] => none

def daysInMonthOf (y m : Nat) : Nat :=
  DAYS_IN_MONTH m + (if m == 2 && isLeap y then 1 else 0)

/-- `datetime.strptime(s, '%Y-%m-%d')`; `none` models the raised `ValueError`. -/
def strptimeYmd (s : String) : Option PyDateTime :=
  match takeYear4 s.data with
  | none => none
  | some (y, r1) =>
    match r1 with
    | '-' :: r2 =>
      match takeMonth r2 with
      | none => none
      | some (m, r3) =>
        match r3 with
        | '-' :: r4 =>
          match takeDay r4 with
          | none => none
          | some (d, r5) =>
            if r5.isEmpty && 1 ≤ y && d ≤ daysInMonthOf y m then
              some ⟨y, m, d, 0, 0, 0, 0⟩
            else none
        | _ => none
    | _ => none

/-! ## SHA-256 (`hashlib.sha256(...).hexdigest()`), FIPS 180-4 over byte lists -/

def w32 : Nat := 4294967296

def rotr32 (n x : Nat) : Nat := ((x >>> n) ||| (x <<< (32 - n))) % w32

def smallSigma0 (x : Nat) : Nat := rotr32 7 x ^^^ rotr32 18 x ^^^ (x >>> 3)

def smallSigma1 (x : Nat) : Nat := rotr32 17 x ^^^ rotr32 19 x ^^^ (x >>> 10)

def bigSigma0 (x : Nat) : Nat := rotr32 2 x ^^^ rotr32 13 x ^^^ rotr32 22 x

def bigSigma1 (x : Nat) : Nat := rotr32 6 x ^^^ rotr32 11 x ^^^ rotr32 25 x

def chFn (x y z : Nat) : Nat := (x &&& y) ^^^ ((x ^^^ 0xffffffff) &&& z)

def majFn (x y z : Nat) : Nat := (x &&& y) ^^^ (x &&& z) ^^^ (y &&& z)

/-- The 64 round constants of FIPS 180-4 §4.2.2, in decimal. -/
def sha256K : List Nat :=
  [1116352408, 1899447441, 3049323471, 3921009573, 961987163, 1508970993,
   2453635748, 2870763221, 3624381080, 310598401, 607225278, 1426881987,
   1925078388, 2162078206, 2614888103, 3248222580, 3835390401, 4022224774,
   264347078, 604807628, 770255983, 1249150122, 1555081692, 1996064986,
   2554220882, 2821834349, 2952996808, 3210313671, 3336571891, 3584528711,
   113926993, 338241895, 666307205, 773529912, 1294757372, 1396182291,
   1695183700, 1986661051, 2177026350, 2456956037, 2730485921, 2820302411,
   3259730800, 3345764771, 3516065817, 3600352804, 4094571909, 275423344,
   430227734, 506948616, 659060556, 883997877, 958139571, 1322822218,
   1537002063, 1747873779, 1955562222, 2024104815, 2227730452, 2361852424,
   2428436474, 2756734187, 3204031479, 3329325298]

/-- The eight initial hash words of FIPS 180-4 §5.3.3, in decimal. -/
def sha256H0 : List Nat :=
  [1779033703, 3144134277, 1013904242, 2773480762, 1359893119, 2600822924,
   528734635, 1541459225]

def be64 (n : Nat) : List Nat :=
  [(n >>> 56) % 256, (n >>> 48) % 256, (n >>> 40) % 256, (n >>> 32) % 256,
   (n >>> 24) % 256, (n >>> 16) % 256, (n >>> 8) % 256, n % 256]

def sha256Pad (msg : List Nat) : List Nat :=
  let L := msg.length
  msg ++ [0x80] ++ List.replicate ((119 - L % 64) % 64) 0 ++ be64 (8 * L)

def chunksAux : Nat → List Nat → List (List Nat)
  | 0, _ => []
  | _, [] => []
  | fuel + 1, l => l.take 64 :: chunksAux fuel (l.drop 64)

def chunks64 (l : List Nat) : List (List Nat) := chunksAux (l.length + 1) l

def word32 (a b c d : Nat) : Nat := ((a * 256 + b) * 256 + c) * 256 + d

def chunkWords : List Nat → List Nat
  | a :: b :: c :: d :: rest => word32 a b c d :: chunkWords rest
  | _ => []

def extendWords (ws : Array Nat) : Array Nat :=
  (List.range 48).foldl
    (fun w i =>
      let t := i + 16
      w.push ((smallSigma1 (w.getD (t - 2) 0) + w.getD (t - 7) 0 +
               smallSigma0 (w.getD (t - 15) 0) + w.getD (t - 16) 0) % w32))
    ws

def sha256Compress (h : List Nat) (chunk : List Nat) : List Nat :=
  let ws := extendWords (Array.mk (chunkWords chunk))
  let init := (h.getD 0 0, h.getD 1 0, h.getD 2 0, h.getD 3 0,
               h.getD 4 0, h.getD 5 0, h.getD 6 0, h.getD 7 0)
  let final := (List.range 64).foldl
    (fun st i =>
      match st with
      | (a, b, c, d, e, f, g, hh) =>
        let t1 := (hh + bigSigma1 e + chFn e f g + sha256K.getD i 0 + ws.getD i 0) % w32
        let t2 := (bigSigma0 a + majFn a b c) % w32
        ((t1 + t2) % w32, a, b, c, (d + t1) % w32, e, f, g))
    init
  match final with
  | (a, b, c, d, e, f, g, hh) =>
    [(h.getD 0 0 + a) % w32, (h.getD 1 0 + b) % w32, (h.getD 2 0 + c) % w32,
     (h.getD 3 0 + d) % w32, (h.getD 4 0 + e) % w32, (h.getD 5 0 + f) % w32,
     (h.getD 6 0 + g) % w32, (h.getD 7 0 + hh) % w32]

def sha256Words (msg : List Nat) : List Nat :=
  (chunks64 (sha256Pad msg)).foldl sha256Compress sha256H0

def hexDigitChar (n : Nat) : Char :=
  if n < 10 then Char.ofNat (48 + n) else Char.ofNat (87 + n)

def hex8 (x : Nat) : String :=
  String.mk ((List.range 8).map fun i => hexDigitChar ((x >>> ((7 - i) * 4)) &&& 15))

def hexdigest (ws : List Nat) : String := String.join (ws.map hex8)

def strBytes (s : String) : List Nat := s.toUTF8.toList.map (fun b => b.toNat)

/-- `hash_pass` from `app.py`: unsalted SHA-256 hex digest of the UTF-8 password. -/
def hash_pass (password : String) : String := hexdigest (sha256Words (strBytes password))

/-! ## Relational state (the six SQLite tables of `init_db`)

DATE/TIMESTAMP columns have no special affinity for the stored datetime
strings, so they hold exactly the TEXT produced by the sqlite3 adapter
(`pyDatetimeStr`); they are modelled as `String`.  Columns never read by
any logic in the source (`created_at`, `phone`, `publisher`, `year`,
`acquired_at`, audit `id`) are omitted.  Autoincrement keys are modelled
by the `next…Id` counters. -/

structure LibraryRow where
  id : Nat
  name : String
  city : String
  address : String
  active : Nat
  deriving DecidableEq

structure UserRow where
  id : Nat
  name : String
  email : Option String
  document : Option String
  password : Option String
  role : String
  library_id : Option Nat
  active : Nat
  lgpd_consent : Nat
  blocked_until : Option String
  deriving DecidableEq

structure BookRow where
  id : Nat
  title : String
  author : String
  isbn : String
  category : String
  deriving DecidableEq

structure CopyRow where
  id : Nat
  book_id : Nat
  library_id : Nat
  code : String
  status : String
  deriving DecidableEq

structure LoanRow where
  id : Nat
  user_id : Nat
  copy_id : Nat
  library_id : Nat
  loan_date : String
  due_date : String
  return_date : Option String
  renewals_count : Nat
  status : String
  deriving DecidableEq

structure AuditRow where
  action : String
  user_id : Nat
  details : String
  timestamp : String
  deriving DecidableEq

structure DB where
  libraries : List LibraryRow
  users : List UserRow
  books : List BookRow
  copies : List CopyRow
  loans : List LoanRow
  audit_logs : List AuditRow
  nextLibraryId : Nat
  nextUserId : Nat
  nextBookId : Nat
  nextCopyId : Nat
  nextLoanId : Nat
  deriving DecidableEq

/-- Business-rule constants from the source. -/
def PRAZO_PADRAO_DIAS : Nat := 14

def LIMITE_LIVROS_POR_LEITOR : Nat := 3

/-- `log_audit`: INSERT INTO audit_logs (action, user_id, details); the
timestamp column is filled by the store's `CURRENT_TIMESTAMP`, passed here
as the ambient clock string `ts`. -/
def log_audit (db : DB) (action : String) (actor_id : Nat) (details : String) (ts : String) : DB :=
  { db with audit_logs := db.audit_logs ++
      [{ action := action, user_id := actor_id, details := details, timestamp := ts }] }

/-- `SELECT count(*) FROM loans WHERE user_id=… AND status='aberto' AND due_date < hoje`
(TEXT comparison under BINARY collation). -/
def overdueCount (db : DB) (uid : Nat) (hoje : String) : Nat :=
  (db.loans.filter fun l => l.user_id == uid && l.status == "aberto" && strLt l.due_date hoje).length

/-- `SELECT count(*) FROM loans WHERE user_id=… AND status='aberto'`. -/
def openLoanCount (db : DB) (uid : Nat) : Nat :=
  (db.loans.filter fun l => l.user_id == uid && l.status == "aberto").length

/-- Python truthiness-plus-comparison
`user['blocked_until'] and user['blocked_until'] >= hoje`
(NULL reads back as `None`, falsy; an empty string would also be falsy). -/
def blockedActive (bu : Option String) (hoje : String) : Bool :=
  match bu with
  | none => false
  | some s => !(s == "") && strGe s hoje

/-- The f-string `f"Usuário bloqueado até {…} por atrasos anteriores."`. -/
def blockMsg (bu : String) : String := s!"Usuário bloqueado até {bu} por atrasos anteriores."

/-- The f-string `f"Limite de empréstimos atingido ({LIMITE_LIVROS_POR_LEITOR} itens)."`. -/
def limitMsg : String := s!"Limite de empréstimos atingido ({LIMITE_LIVROS_POR_LEITOR} itens)."

/-- `check_leitor_elegivel(user_id)`; `hoje = datetime.now().strftime('%Y-%m-%d')`.
`none` models the `iloc[0]` IndexError when no user row has this id. -/
def check_leitor_elegivel (db : DB) (user_id : Nat) (hoje : String) : Option (Bool × String) :=
  match db.users.find? (fun u => u.id == user_id) with
  | none => none
  | some u =>
    if u.active == 0 then some (false, "Usuário inativo.")
    else if blockedActive u.blocked_until hoje then
      -- in this branch `blocked_until` is a nonempty `some`, so `getD` is its content
      some (false, blockMsg (u.blocked_until.getD ""))
    else if 0 < overdueCount db user_id hoje then
      some (false, "Usuário possui itens em atraso. Regularize antes de novos empréstimos.")
    else if LIMITE_LIVROS_POR_LEITOR ≤ openLoanCount db user_id then
      some (false, limitMsg)
    else some (true, "Elegível")

/-- The in-memory session record built on successful login. -/
structure SessionUser where
  id : Nat
  name : String
  role : String
  library_id : Option Nat
  library_name : Option String
  deriving DecidableEq

/-- The login query of `login_sidebar`:
`SELECT … FROM users u LEFT JOIN libraries l ON u.library_id = l.id
WHERE u.email=? AND u.password=? AND u.active=1`, `fetchone`. -/
def login_attempt (db : DB) (email pwd : String) : Option SessionUser :=
  (db.users.find? fun u =>
      u.email == some email && u.password == some (hash_pass pwd) && u.active == 1).map
    fun u =>
      { id := u.id, name := u.name, role := u.role, library_id := u.library_id,
        library_name :=
          match u.library_id with
          | none => none
          | some lid => (db.libraries.find? fun l => l.id == lid).map fun l => l.name }

/-! ## Mutating operations (the form handlers) -/

/-- Admin "Cadastrar Nova Biblioteca": INSERT plus `log_audit("create_library", …)`. -/
def createLibraryDetail (name : String) : String := s!"Criou biblioteca {name}"

def createLibrary (db : DB) (name city addr : String) (actor_id : Nat) (ts : String) : DB :=
  let db1 := { db with
    libraries := db.libraries ++
      [{ id := db.nextLibraryId, name := name, city := city, address := addr, active := 1 }],
    nextLibraryId := db.nextLibraryId + 1 }
  log_audit db1 "create_library" actor_id (createLibraryDetail name) ts

/-- Admin "Cadastrar Coordenador": INSERT with role `coord_local`; a duplicate
email raises `sqlite3.IntegrityError`, caught with no mutation.  No audit call. -/
def createCoordinator (db : DB) (nome email pwd : String) (lib_id : Nat) : DB × Bool :=
  if db.users.any (fun u => u.email == some email) then (db, false)
  else
    ({ db with
        users := db.users ++
          [{ id := db.nextUserId, name := nome, email := some email, document := none,
             password := some (hash_pass pwd), role := "coord_local",
             library_id := some lib_id, active := 1, lgpd_consent := 0,
             blocked_until := none }],
        nextUserId := db.nextUserId + 1 }, true)

/-- Admin "Adicionar ao Catálogo Geral": INSERT INTO books.  No audit call. -/
def createBook (db : DB) (title author category isbn : String) : DB :=
  { db with
    books := db.books ++
      [{ id := db.nextBookId, title := title, author := author, isbn := isbn,
         category := category }],
    nextBookId := db.nextBookId + 1 }

/-- Coordinator "Adicionar Exemplar ao Acervo": INSERT INTO copies with
status `disponivel`; a duplicate `(library_id, code)` raises
`IntegrityError`, caught with no mutation.  No audit call. -/
def createCopy (db : DB) (book_id user_lib_id : Nat) (code : String) : DB × Bool :=
  if db.copies.any (fun c => c.library_id == user_lib_id && c.code == code) then (db, false)
  else
    ({ db with
        copies := db.copies ++
          [{ id := db.nextCopyId, book_id := book_id, library_id := user_lib_id,
             code := code, status := "disponivel" }],
        nextCopyId := db.nextCopyId + 1 }, true)

/-- Coordinator "Cadastrar Leitor": requires the LGPD checkbox; the bare
`except` catches any integrity error (duplicate contact) with no mutation.
No audit call. -/
def createReader (db : DB) (nome doc email : String) (user_lib_id : Nat) (lgpd : Bool) :
    DB × Bool :=
  if !lgpd then (db, false)
  else if db.users.any (fun u => u.email == some email) then (db, false)
  else
    ({ db with
        users := db.users ++
          [{ id := db.nextUserId, name := nome, email := some email, document := some doc,
             password := none, role := "leitor", library_id := some user_lib_id,
             active := 1, lgpd_consent := 1, blocked_until := none }],
        nextUserId := db.nextUserId + 1 }, true)

/-- "Confirmar Saída" (loan creation): validate with `check_leitor_elegivel`;
if eligible, INSERT the loan (status and renewals from the schema defaults
`'aberto'` and `0`, `loan_date = now`, `due_date = now + 14 days`) and set
the copy's status to `emprestado` unconditionally, then audit; if not
eligible, mutate nothing and surface the reason. -/
def loanCreateDetail (e_code : String) (l_id : Nat) : String :=
  s!"Empréstimo exemplar {e_code} para user {l_id}"

def confirmLoan (db : DB) (l_id e_id : Nat) (e_code : String) (user_lib_id actor_id : Nat)
    (dt_hoje : PyDateTime) (ts : String) : Option (DB × Bool × String) :=
  match check_leitor_elegivel db l_id (strftimeYmd dt_hoje) with
  | none => none
  | some (elegivel, msg) =>
    if elegivel then
      let newLoan : LoanRow :=
        { id := db.nextLoanId, user_id := l_id, copy_id := e_id, library_id := user_lib_id,
          loan_date := pyDatetimeStr dt_hoje,
          due_date := pyDatetimeStr (pyAddDays dt_hoje PRAZO_PADRAO_DIAS),
          return_date := none, renewals_count := 0, status := "aberto" }
      let db1 := { db with
        loans := db.loans ++ [newLoan],
        copies := db.copies.map fun c =>
          if c.id == e_id then { c with status := "emprestado" } else c,
        nextLoanId := db.nextLoanId + 1 }
      some (log_audit db1 "loan_create" actor_id (loanCreateDetail e_code l_id) ts, true, msg)
    else some (db, false, msg)

/-- The open-loan list offered by the return form:
`SELECT … FROM loans l … WHERE l.library_id=… AND l.status='aberto'`. -/
def openLoanChoices (db : DB) (user_lib_id : Nat) : List LoanRow :=
  db.loans.filter fun l => l.library_id == user_lib_id && l.status == "aberto"

def loanReturnDetail (loan_id : Nat) (msg_extra : String) : String :=
  s!"Devolução id {loan_id}. {msg_extra}"

/-- "Confirmar Devolução": fetch the loan row, parse its `due_date` with
`strptime('%Y-%m-%d')` (`none` = the raised ValueError, aborting before any
mutation); block the reader when `dt_now > dt_due + timedelta(days=1)` with
`blocked_until = dt_now + timedelta(days=2*dias_atraso)`; close the loan and
free the copy; audit.  In the overdue branch `pyToUs dt_now > pyToUs dt_due`,
so the `Nat` subtraction/division below is Python's
`(dt_now - dt_due).days` floor division exactly. -/
def confirmReturn (db : DB) (loan_id : Nat) (dt_now : PyDateTime) (actor_id : Nat)
    (ts : String) : Option (DB × String) :=
  match db.loans.find? (fun l => l.id == loan_id) with
  | none => none
  | some loan =>
    match strptimeYmd loan.due_date with
    | none => none
    | some dt_due =>
      let overdue := pyToUs dt_due + usPerDay < pyToUs dt_now
      let dias_atraso := (pyToUs dt_now - pyToUs dt_due) / usPerDay
      let dt_unlock := pyAddDays dt_now (dias_atraso * 2)
      let db1 :=
        if overdue then
          { db with users := db.users.map fun u =>
              if u.id == loan.user_id then
                { u with blocked_until := some (pyDatetimeStr dt_unlock) }
              else u }
        else db
      let msg_extra :=
        if overdue then
          let unlockBr := strftimeDmY dt_unlock
          s!"⚠️ Atraso de {dias_atraso} dias. Leitor bloqueado até {unlockBr}."
        else ""
      let db2 := { db1 with
        loans := db1.loans.map fun l =>
          if l.id == loan_id then
            { l with status := "devolvido", return_date := some (pyDatetimeStr dt_now) }
          else l,
        copies := db1.copies.map fun c =>
          if c.id == loan.copy_id then { c with status := "disponivel" } else c }
      some (log_audit db2 "loan_return" actor_id (loanReturnDetail loan_id msg_extra) ts,
            msg_extra)

/-! ## The four eligibility conditions as independent booleans (for C8) -/

def cond_active (u : UserRow) : Bool := decide (u.active ≠ 0)

def cond_not_blocked (u : UserRow) (hoje : String) : Bool := !(blockedActive u.blocked_until hoje)

def cond_no_overdue (db : DB) (uid : Nat) (hoje : String) : Bool :=
  decide (overdueCount db uid hoje = 0)

def cond_capacity (db : DB) (uid : Nat) : Bool :=
  decide (openLoanCount db uid < LIMITE_LIVROS_POR_LEITOR)

/-! ## Helper lemmas -/

theorem perm_all_id {l l' : List Bool} (h : l.Perm l') : l.all id = l'.all id := by
  apply Bool.eq_iff_iff.mpr
  simp only [List.all_eq_true]
  exact ⟨fun hx x hm => hx x (h.mem_iff.mpr hm), fun hx x hm => hx x (h.mem_iff.mp hm)⟩

theorem copies_update_status {l : List CopyRow} {e : Nat} {s : String} :
    ∀ c ∈ l.map (fun c => if c.id == e then { c with status := s } else c),
      c.id = e → c.status = s := by
  intro c hc hce
  rcases List.mem_map.mp hc with ⟨x, _, hfx⟩
  by_cases hxe : x.id == e
  · rw [if_pos hxe] at hfx
    rw [← hfx]
  · rw [if_neg hxe] at hfx
    subst hfx
    exact absurd (beq_iff_eq.mpr hce) hxe

theorem loans_update_closed {l : List LoanRow} {tid : Nat} {rd : Option String} :
    ∀ x ∈ l.map (fun x =>
        if x.id == tid then { x with status := "devolvido", return_date := rd } else x),
      x.id = tid → x.status = "devolvido" ∧ x.return_date = rd := by
  intro x hx hxt
  rcases List.mem_map.mp hx with ⟨y, _, hfy⟩
  by_cases hyt : y.id == tid
  · rw [if_pos hyt] at hfy
    rw [← hfy]
    exact ⟨rfl, rfl⟩
  · rw [if_neg hyt] at hfy
    subst hfy
    exact absurd (beq_iff_eq.mpr hxt) hyt

theorem filter_open_excludes {l : List LoanRow} {tid : Nat} {rd : Option String} (lib2 : Nat) :
    ∀ x ∈ (l.map (fun x =>
        if x.id == tid then { x with status := "devolvido", return_date := rd } else x)).filter
          (fun x => x.library_id == lib2 && x.status == "aberto"),
      x.id ≠ tid := by
  intro x hx hxt
  have hmem := List.mem_of_mem_filter hx
  have hpred := List.of_mem_filter hx
  obtain ⟨hst, _⟩ := loans_update_closed x hmem hxt
  rw [Bool.and_eq_true] at hpred
  rw [hst] at hpred
  exact absurd hpred.2 (by decide)

/-! ## Claim theorems -/

/-- C1: The eligibility decision evaluates four checks in fixed order with
short-circuit on the first failure: inactive user, block date still current
(string comparison against today), open loans already overdue, and the fixed
capacity limit of 3 open loans; if all pass it accepts with reason
"Elegível". -/
theorem eligibility_cascade (db : DB) (uid : Nat) (hoje : String) (u : UserRow)
    (hfind : db.users.find? (fun v => v.id == uid) = some u) :
    (u.active = 0 → check_leitor_elegivel db uid hoje = some (false, "Usuário inativo.")) ∧
    (u.active ≠ 0 → blockedActive u.blocked_until hoje = true →
      check_leitor_elegivel db uid hoje = some (false, blockMsg (u.blocked_until.getD ""))) ∧
    (u.active ≠ 0 → blockedActive u.blocked_until hoje = false →
      0 < overdueCount db uid hoje →
      check_leitor_elegivel db uid hoje =
        some (false, "Usuário possui itens em atraso. Regularize antes de novos empréstimos.")) ∧
    (u.active ≠ 0 → blockedActive u.blocked_until hoje = false →
      overdueCount db uid hoje = 0 → 3 ≤ openLoanCount db uid →
      check_leitor_elegivel db uid hoje = some (false, limitMsg)) ∧
    (u.active ≠ 0 → blockedActive u.blocked_until hoje = false →
      overdueCount db uid hoje = 0 → openLoanCount db uid < 3 →
      check_leitor_elegivel db uid hoje = some (true, "Elegível")) ∧
    limitMsg = "Limite de empréstimos atingido (3 itens)." := by
  refine ⟨?_, ?_, ?_, ?_, ?_, by decide⟩
  · intro h1
    simp [check_leitor_elegivel, hfind, h1]
  · intro h1 h2
    simp [check_leitor_elegivel, hfind, h1, h2]
  · intro h1 h2 h3
    simp [check_leitor_elegivel, hfind, h1, h2, h3]
  · intro h1 h2 h3 h4
    simp [check_leitor_elegivel, hfind, h1, h2, h3, LIMITE_LIVROS_POR_LEITOR, h4]
  · intro h1 h2 h3 h4
    simp [check_leitor_elegivel, hfind, h1, h2, h3, LIMITE_LIVROS_POR_LEITOR]
    omega

/-- C5: When the eligibility engine rejects, loan creation performs no
mutation at all — the returned state is the input state — and the caller
receives the rejection reason. -/
theorem rejection_no_mutation (db : DB) (l_id e_id : Nat) (e_code : String)
    (lib actor : Nat) (dt : PyDateTime) (ts msg : String)
    (hrej : check_leitor_elegivel db l_id (strftimeYmd dt) = some (false, msg)) :
    confirmLoan db l_id e_id e_code lib actor dt ts = some (db, false, msg) := by
  simp [confirmLoan, hrej]

/-- C8: The accept/reject decision of the eligibility engine equals the
conjunction of its four conditions, so it is invariant under any reordering
of the checks: for every permutation of the four condition booleans, the
decision is their conjunction. -/
theorem decision_order_independent (db : DB) (uid : Nat) (hoje : String) (u : UserRow)
    (b : Bool) (r : String)
    (hfind : db.users.find? (fun v => v.id == uid) = some u)
    (hres : check_leitor_elegivel db uid hoje = some (b, r))
    (l : List Bool)
    (hperm : l.Perm [cond_active u, cond_not_blocked u hoje,
                     cond_no_overdue db uid hoje, cond_capacity db uid]) :
    b = l.all id := by
  rw [perm_all_id hperm]
  simp only [check_leitor_elegivel, hfind] at hres
  by_cases h1 : u.active == 0 <;>
    by_cases h2 : blockedActive u.blocked_until hoje <;>
      by_cases h3 : 0 < overdueCount db uid hoje <;>
        by_cases h4 : LIMITE_LIVROS_POR_LEITOR ≤ openLoanCount db uid <;>
          simp only [h1, h2, h3, h4, if_pos, if_neg, if_true, if_false,
            Bool.false_eq_true, not_false_eq_true, Option.some.injEq, Prod.mk.injEq] at hres <;>
          simp_all [cond_active, cond_not_blocked, cond_no_overdue, cond_capacity,
            List.all, beq_iff_eq] <;>
          omega

/-- C9: Login succeeds exactly when some user row has the submitted email,
the unsalted SHA-256 hex digest of the submitted password as stored hash, and
active flag 1; in particular inactive accounts never authenticate. -/
theorem login_success_iff (db : DB) (email pwd : String) :
    (login_attempt db email pwd).isSome = true ↔
      ∃ u ∈ db.users, u.email = some email ∧ u.password = some (hash_pass pwd) ∧
        u.active = 1 := by
  unfold login_attempt
  have hmap : ∀ (o : Option UserRow) (f : UserRow → SessionUser),
      (o.map f).isSome = o.isSome := by
    intro o f
    cases o <;> rfl
  rw [hmap, List.find?_isSome]
  simp [Bool.and_eq_true, beq_iff_eq, and_assoc]

/-- C2: On a processed return, a block is applied iff the return time
exceeds the due date plus one day; when applied, the reader's blocked-until
becomes the return time plus `2 × days-overdue` days (days-overdue being the
whole-day difference between return time and due date), replacing any prior
value; otherwise no user row changes. -/
theorem return_block_rule (db : DB) (loan_id : Nat) (dt_now : PyDateTime)
    (actor : Nat) (ts : String) (loan : LoanRow) (dt_due : PyDateTime)
    (hfind : db.loans.find? (fun l => l.id == loan_id) = some loan)
    (hparse : strptimeYmd loan.due_date = some dt_due) :
    ∃ db' msg, confirmReturn db loan_id dt_now actor ts = some (db', msg) ∧
      (¬ pyToUs dt_due + usPerDay < pyToUs dt_now → db'.users = db.users) ∧
      (pyToUs dt_due + usPerDay < pyToUs dt_now →
        db'.users = db.users.map fun u =>
          if u.id == loan.user_id then
            { u with blocked_until := some (pyDatetimeStr
                (pyAddDays dt_now (((pyToUs dt_now - pyToUs dt_due) / usPerDay) * 2))) }
          else u) := by
  simp only [confirmReturn, hfind, hparse]
  by_cases hov : pyToUs dt_due + usPerDay < pyToUs dt_now
  · exact ⟨_, _, rfl, fun h => absurd hov h, fun _ => by simp [hov, log_audit]⟩
  · exact ⟨_, _, rfl, fun _ => by simp [hov, log_audit], fun h => absurd h hov⟩

/-- C3: An accepted loan creation (eligible reader, available copy of the
coordinator's library) inserts, together with flipping the copy to
`emprestado`, a loan row with status `aberto`, loan date = now, due date =
now + exactly 14 days, and renewal count 0. -/
theorem loan_creation_effect (db : DB) (l_id e_id : Nat) (e_code : String)
    (lib actor : Nat) (dt : PyDateTime) (ts m : String) (copy : CopyRow)
    (helig : check_leitor_elegivel db l_id (strftimeYmd dt) = some (true, m))
    (hc : copy ∈ db.copies) (hcid : copy.id = e_id) (hcs : copy.status = "disponivel")
    (hcl : copy.library_id = lib) :
    ∃ db', confirmLoan db l_id e_id e_code lib actor dt ts = some (db', true, m) ∧
      db'.loans = db.loans ++
        [{ id := db.nextLoanId, user_id := l_id, copy_id := e_id, library_id := lib,
           loan_date := pyDatetimeStr dt, due_date := pyDatetimeStr (pyAddDays dt 14),
           return_date := none, renewals_count := 0, status := "aberto" }] ∧
      db'.copies = db.copies.map (fun c =>
        if c.id == e_id then { c with status := "emprestado" } else c) ∧
      (∀ c ∈ db'.copies, c.id = e_id → c.status = "emprestado") := by
  simp only [confirmLoan, helig, if_true, PRAZO_PADRAO_DIAS]
  exact ⟨_, rfl, rfl, rfl, copies_update_status⟩

/-- C4: A return of an open loan closes exactly that loan (status
`devolvido`, return date = now), frees the referenced copy, deletes nothing,
and the closed loan disappears from the open-loan selection, so it cannot be
returned again; loan creation only appends to the loan table and the
administrative operations never touch it, so a closed loan is never revisited
or deleted. -/
theorem return_state_transition (db : DB) (loan_id : Nat) (dt_now : PyDateTime)
    (actor : Nat) (ts : String) (loan : LoanRow) (dt_due : PyDateTime)
    (hfind : db.loans.find? (fun l => l.id == loan_id) = some loan)
    (hopen : loan.status = "aberto")
    (hparse : strptimeYmd loan.due_date = some dt_due) :
    ∃ db' msg, confirmReturn db loan_id dt_now actor ts = some (db', msg) ∧
      db'.loans = db.loans.map (fun l =>
        if l.id == loan_id then
          { l with status := "devolvido", return_date := some (pyDatetimeStr dt_now) }
        else l) ∧
      db'.copies = db.copies.map (fun c =>
        if c.id == loan.copy_id then { c with status := "disponivel" } else c) ∧
      (∀ c ∈ db'.copies, c.id = loan.copy_id → c.status = "disponivel") ∧
      db'.loans.length = db.loans.length ∧
      (∀ l ∈ db'.loans, l.id = loan_id →
        l.status = "devolvido" ∧ l.return_date = some (pyDatetimeStr dt_now)) ∧
      (∀ lib2, ∀ l ∈ openLoanChoices db' lib2, l.id ≠ loan_id) ∧
      (∀ db2 name city addr act ts2, (createLibrary db2 name city addr act ts2).loans = db2.loans) ∧
      (∀ db2 n e p lb, ((createCoordinator db2 n e p lb).1).loans = db2.loans) ∧
      (∀ db2 t a c i, (createBook db2 t a c i).loans = db2.loans) ∧
      (∀ db2 b lb c, ((createCopy db2 b lb c).1).loans = db2.loans) ∧
      (∀ db2 n d e lb g, ((createReader db2 n d e lb g).1).loans = db2.loans) ∧
      (∀ db2 a b c d e f g r, confirmLoan db2 a b c d e f g = some r →
        db2.loans <+: r.1.loans) := by
  have hloans : ∃ db' msg, confirmReturn db loan_id dt_now actor ts = some (db', msg) ∧
      db'.loans = db.loans.map (fun l =>
        if l.id == loan_id then
          { l with status := "devolvido", return_date := some (pyDatetimeStr dt_now) }
        else l) ∧
      db'.copies = db.copies.map (fun c =>
        if c.id == loan.copy_id then { c with status := "disponivel" } else c) := by
    simp only [confirmReturn, hfind, hparse]
    by_cases hov : pyToUs dt_due + usPerDay < pyToUs dt_now
    · exact ⟨_, _, rfl, by simp [hov, log_audit], by simp [hov, log_audit]⟩
    · exact ⟨_, _, rfl, by simp [hov, log_audit], by simp [hov, log_audit]⟩
  obtain ⟨db', msg, hEq, hL, hC⟩ := hloans
  refine ⟨db', msg, hEq, hL, hC, ?_, ?_, ?_, ?_, ?_, ?_, ?_, ?_, ?_, ?_⟩
  · rw [hC]
    exact copies_update_status
  · rw [hL, List.length_map]
  · rw [hL]
    exact loans_update_closed
  · intro lib2
    unfold openLoanChoices
    rw [hL]
    exact filter_open_excludes lib2
  · intro db2 name city addr act ts2
    rfl
  · intro db2 n e p lb
    unfold createCoordinator
    split <;> rfl
  · intro db2 t a c i
    rfl
  · intro db2 b lb c
    unfold createCopy
    split <;> rfl
  · intro db2 n d e lb g
    unfold createReader
    split
    · rfl
    · split <;> rfl
  · intro db2 a b c d e f g r hr
    simp only [confirmLoan] at hr
    cases hchk : check_leitor_elegivel db2 a (strftimeYmd f) with
    | none =>
      rw [hchk] at hr
      exact absurd hr (by simp)
    | some p =>
      rw [hchk] at hr
      obtain ⟨elegivel, m2⟩ := p
      by_cases he : elegivel = true
      · subst he
        simp only [if_true] at hr
        obtain rfl := Option.some.inj hr
        exact ⟨_, rfl⟩
      · rw [Bool.not_eq_true] at he
        subst he
        simp only [Bool.false_eq_true, if_false] at hr
        obtain rfl := Option.some.inj hr
        exact ⟨[], List.append_nil _⟩

/-- C6 (amended): the copy-status update of loan creation is NOT conditioned
on the copy's status at mutation time: whenever eligibility accepts, the
creation succeeds, the loan row is inserted, and the copy's status is
overwritten to `emprestado` whatever its previous value was, so a copy that
is no longer available is double-allocated rather than the creation
failing. -/
theorem copy_overwrite_unconditional (db : DB) (l_id e_id : Nat) (e_code : String)
    (lib actor : Nat) (dt : PyDateTime) (ts m : String)
    (helig : check_leitor_elegivel db l_id (strftimeYmd dt) = some (true, m)) :
    ∃ db', confirmLoan db l_id e_id e_code lib actor dt ts = some (db', true, m) ∧
      db'.loans = db.loans ++
        [{ id := db.nextLoanId, user_id := l_id, copy_id := e_id, library_id := lib,
           loan_date := pyDatetimeStr dt, due_date := pyDatetimeStr (pyAddDays dt 14),
           return_date := none, renewals_count := 0, status := "aberto" }] ∧
      db'.copies = db.copies.map (fun c =>
        if c.id == e_id then { c with status := "emprestado" } else c) := by
  simp only [confirmLoan, helig, if_true, PRAZO_PADRAO_DIAS]
  exact ⟨_, rfl, rfl, rfl⟩

/-- A database in which copy 1 is already on loan (status `emprestado`, one
open loan on it) while reader 1 is fully eligible. -/
def cexDB6 : DB :=
  { libraries := [{ id := 1, name := "Central", city := "Capital", address := "", active := 1 }]
    users := [{ id := 1, name := "Ana", email := some "ana@x", document := none,
                password := none, role := "leitor", library_id := some 1, active := 1,
                lgpd_consent := 1, blocked_until := none }]
    books := [{ id := 1, title := "Dom Casmurro", author := "Machado de Assis",
                isbn := "85359", category := "Romance" }]
    copies := [{ id := 1, book_id := 1, library_id := 1, code := "EX1", status := "emprestado" }]
    loans := [{ id := 1, user_id := 2, copy_id := 1, library_id := 1,
                loan_date := "2026-10-01", due_date := "2026-12-01", return_date := none,
                renewals_count := 0, status := "aberto" }]
    audit_logs := []
    nextLibraryId := 2, nextUserId := 3, nextBookId := 2, nextCopyId := 2, nextLoanId := 2 }

/-- C6 (counterexample): with copy 1 not `disponivel` at mutation time, the
creation still succeeds — producing a second open loan on the same copy —
instead of failing, so the update is not conditioned on the copy's status. -/
theorem copy_status_not_conditioned_cex :
    (cexDB6.copies.map (fun c => (c.id, c.status)) = [(1, "emprestado")]) ∧
    ((confirmLoan cexDB6 1 1 "EX1" 1 9 ⟨2026, 10, 12, 10, 0, 0, 0⟩ "ts0").map (fun r =>
        (r.2.1,
         (r.1.loans.filter (fun l => l.copy_id == 1 && l.status == "aberto")).length,
         r.1.copies.map (fun c => c.status)))
      = some (true, 2, ["emprestado"])) := by
  exact ⟨rfl, rfl⟩

/-- C7 (amended): only library creation, loan creation and loan return append
an audit entry (action tag, acting user id, detail; timestamp filled by the
store); coordinator creation, book creation, copy creation and reader
creation leave the audit log unchanged; no operation rewrites or deletes
existing audit entries — the log component is always either preserved or
appended to. -/
theorem audit_coverage :
    (∀ db name city addr actor ts, (createLibrary db name city addr actor ts).audit_logs =
      db.audit_logs ++ [{ action := "create_library", user_id := actor,
                          details := createLibraryDetail name, timestamp := ts }]) ∧
    (∀ db n e p lb, ((createCoordinator db n e p lb).1).audit_logs = db.audit_logs) ∧
    (∀ db t a c i, (createBook db t a c i).audit_logs = db.audit_logs) ∧
    (∀ db b lb c, ((createCopy db b lb c).1).audit_logs = db.audit_logs) ∧
    (∀ db n d e lb g, ((createReader db n d e lb g).1).audit_logs = db.audit_logs) ∧
    (∀ db l_id e_id e_code lib actor dt ts m,
      check_leitor_elegivel db l_id (strftimeYmd dt) = some (true, m) →
      (confirmLoan db l_id e_id e_code lib actor dt ts).map (fun r => r.1.audit_logs) =
        some (db.audit_logs ++ [{ action := "loan_create", user_id := actor,
                                  details := loanCreateDetail e_code l_id, timestamp := ts }])) ∧
    (∀ db l_id e_id e_code lib actor dt ts m,
      check_leitor_elegivel db l_id (strftimeYmd dt) = some (false, m) →
      (confirmLoan db l_id e_id e_code lib actor dt ts).map (fun r => r.1.audit_logs) =
        some db.audit_logs) ∧
    (∀ db loan_id dt_now actor ts loan dt_due,
      db.loans.find? (fun l => l.id == loan_id) = some loan →
      strptimeYmd loan.due_date = some dt_due →
      ∃ d, (confirmReturn db loan_id dt_now actor ts).map (fun r => r.1.audit_logs) =
        some (db.audit_logs ++ [{ action := "loan_return", user_id := actor,
                                  details := d, timestamp := ts }])) := by
  refine ⟨?_, ?_, ?_, ?_, ?_, ?_, ?_, ?_⟩
  · intro db name city addr actor ts
    rfl
  · intro db n e p lb
    unfold createCoordinator
    split <;> rfl
  · intro db t a c i
    rfl
  · intro db b lb c
    unfold createCopy
    split <;> rfl
  · intro db n d e lb g
    unfold createReader
    split
    · rfl
    · split <;> rfl
  · intro db l_id e_id e_code lib actor dt ts m h
    simp only [confirmLoan, h, if_true]
    rfl
  · intro db l_id e_id e_code lib actor dt ts m h
    simp only [confirmLoan, h, Bool.false_eq_true, if_false]
    rfl
  · intro db loan_id dt_now actor ts loan dt_due hf hp
    by_cases hov : pyToUs dt_due + usPerDay < pyToUs dt_now
    · exact ⟨_, by simp only [confirmReturn, hf, hp, if_pos hov]; rfl⟩
    · exact ⟨_, by simp only [confirmReturn, hf, hp, if_neg hov]; rfl⟩

/-- An empty database for the audit counterexample. -/
def cexDB7 : DB :=
  { libraries := [], users := [], books := [], copies := [], loans := [], audit_logs := []
    nextLibraryId := 1, nextUserId := 1, nextBookId := 1, nextCopyId := 1, nextLoanId := 1 }

/-- C7 (counterexample): book creation is a mutating action (the book table
changes) yet appends no audit entry, refuting "every mutating action appends
an audit-log entry". -/
theorem audit_not_universal_cex :
    (createBook cexDB7 "Dom Casmurro" "Machado de Assis" "Romance" "85359").books ≠
      cexDB7.books ∧
    (createBook cexDB7 "Dom Casmurro" "Machado de Assis" "Romance" "85359").audit_logs =
      cexDB7.audit_logs := by
  exact ⟨by decide, rfl⟩

/-- A database with an eligible reader 1 and available copy 1 on which the
system itself creates a loan. -/
def bugDB10 : DB :=
  { libraries := [{ id := 1, name := "Central", city := "Capital", address := "", active := 1 }]
    users := [{ id := 1, name := "Ana", email := some "ana@x", document := none,
                password := none, role := "leitor", library_id := some 1, active := 1,
                lgpd_consent := 1, blocked_until := none }]
    books := [{ id := 1, title := "Dom Casmurro", author := "Machado de Assis",
                isbn := "85359", category := "Romance" }]
    copies := [{ id := 1, book_id := 1, library_id := 1, code := "EX1", status := "disponivel" }]
    loans := [], audit_logs := []
    nextLibraryId := 2, nextUserId := 2, nextBookId := 2, nextCopyId := 2, nextLoanId := 1 }

/-- C10: loan creation stores the due date as a full datetime string
(`YYYY-MM-DD HH:MM:SS`), but the return path parses the stored due date with
the day-only format `%Y-%m-%d`, which fails on the trailing time of day
("unconverted data remains"), so the return of a loan the system itself
created aborts with a ValueError instead of completing. -/
theorem due_date_parse_fails :
    ((confirmLoan bugDB10 1 1 "EX1" 1 9 ⟨2026, 10, 12, 14, 30, 5, 0⟩ "ts0").bind (fun r =>
        r.1.loans.head?.map (fun l => l.due_date))) = some "2026-10-26 14:30:05" ∧
    strptimeYmd "2026-10-26 14:30:05" = none ∧
    ((confirmLoan bugDB10 1 1 "EX1" 1 9 ⟨2026, 10, 12, 14, 30, 5, 0⟩ "ts0").bind (fun r =>
        confirmReturn r.1 1 ⟨2026, 10, 27, 9, 0, 0, 0⟩ 9 "ts1")) = none := by
  exact ⟨rfl, rfl, rfl⟩

/-! ## Witness instances -/

def wu1 : UserRow :=
  { id := 1, name := "Ana", email := some "ana@x", document := none, password := none,
    role := "leitor", library_id := some 1, active := 1, lgpd_consent := 1,
    blocked_until := none }

def wdb1 : DB :=
  { libraries := [], users := [wu1], books := [], copies := [], loans := [], audit_logs := []
    nextLibraryId := 1, nextUserId := 2, nextBookId := 1, nextCopyId := 1, nextLoanId := 1 }

/-- Witness for C1 at a concrete eligible reader. -/
theorem eligibility_cascade_witness :
    check_leitor_elegivel wdb1 1 "2026-10-12" = some (true, "Elegível") :=
  (eligibility_cascade wdb1 1 "2026-10-12" wu1 rfl).2.2.2.2.1
    (by decide) (by decide) (by decide) (by decide)

def wloan2 : LoanRow :=
  { id := 1, user_id := 1, copy_id := 1, library_id := 1, loan_date := "2026-10-12",
    due_date := "2026-10-26", return_date := none, renewals_count := 0, status := "aberto" }

def wdb2 : DB :=
  { libraries := [], users := [wu1], books := [], loans := [wloan2], audit_logs := []
    copies := [{ id := 1, book_id := 1, library_id := 1, code := "EX1", status := "emprestado" }]
    nextLibraryId := 1, nextUserId := 2, nextBookId := 1, nextCopyId := 2, nextLoanId := 2 }

/-- Witness for C2 at the two boundary cases of the spec: a return exactly
one day late applies no block; a return five days late blocks until return
time plus ten days. -/
theorem return_block_rule_witness :
    ((confirmReturn wdb2 1 ⟨2026, 10, 27, 0, 0, 0, 0⟩ 9 "ts1").map (fun r => r.1.users) =
      some wdb2.users) ∧
    ((confirmReturn wdb2 1 ⟨2026, 10, 31, 0, 0, 0, 0⟩ 9 "ts1").map (fun r =>
        r.1.users.map (fun u => u.blocked_until)) =
      some [some "2026-11-10 00:00:00"]) := by
  constructor
  · obtain ⟨db', msg, hEq, hno, _⟩ :=
      return_block_rule wdb2 1 ⟨2026, 10, 27, 0, 0, 0, 0⟩ 9 "ts1" wloan2
        ⟨2026, 10, 26, 0, 0, 0, 0⟩ rfl (by decide)
    rw [hEq, Option.map_some', hno (by decide)]
  · obtain ⟨db', msg, hEq, _, hyes⟩ :=
      return_block_rule wdb2 1 ⟨2026, 10, 31, 0, 0, 0, 0⟩ 9 "ts1" wloan2
        ⟨2026, 10, 26, 0, 0, 0, 0⟩ rfl (by decide)
    rw [hEq, Option.map_some', hyes (by decide)]
    decide

def wcopy3 : CopyRow := { id := 1, book_id := 1, library_id := 1, code := "EX1", status := "disponivel" }

def wdb3 : DB :=
  { libraries := [], users := [wu1], books := [], copies := [wcopy3], loans := [], audit_logs := []
    nextLibraryId := 1, nextUserId := 2, nextBookId := 1, nextCopyId := 2, nextLoanId := 1 }

/-- Witness for C3: the created loan is open, due in exactly 14 days, with
renewal count 0, and the copy flips to on-loan. -/
theorem loan_creation_effect_witness :
    (confirmLoan wdb3 1 1 "EX1" 1 9 ⟨2026, 10, 12, 14, 30, 5, 0⟩ "ts0").map (fun r =>
        (r.2.1, r.2.2,
         r.1.loans.map (fun l => (l.status, l.loan_date, l.due_date, l.renewals_count)),
         r.1.copies.map (fun c => c.status))) =
      some (true, "Elegível",
            [("aberto", "2026-10-12 14:30:05", "2026-10-26 14:30:05", 0)],
            ["emprestado"]) := by
  obtain ⟨db', hEq, hL, hC, _⟩ :=
    loan_creation_effect wdb3 1 1 "EX1" 1 9 ⟨2026, 10, 12, 14, 30, 5, 0⟩ "ts0" "Elegível"
      wcopy3 (by decide) (by decide) rfl rfl rfl
  rw [hEq, Option.map_some', hL, hC]
  rfl

def wdb5 : DB :=
  { libraries := [], books := [], copies := [], loans := [], audit_logs := []
    users := [{ id := 1, name := "Ana", email := some "ana@x", document := none,
                password := none, role := "leitor", library_id := some 1, active := 0,
                lgpd_consent := 1, blocked_until := none }]
    nextLibraryId := 1, nextUserId := 2, nextBookId := 1, nextCopyId := 1, nextLoanId := 1 }

/-- Witness for C5: an inactive reader is rejected and the state is returned
unchanged. -/
theorem rejection_no_mutation_witness :
    confirmLoan wdb5 1 1 "EX1" 1 9 ⟨2026, 10, 12, 14, 30, 5, 0⟩ "ts0" =
      some (wdb5, false, "Usuário inativo.") :=
  rejection_no_mutation wdb5 1 1 "EX1" 1 9 ⟨2026, 10, 12, 14, 30, 5, 0⟩ "ts0"
    "Usuário inativo." (by decide)

def wloan4 : LoanRow :=
  { id := 1, user_id := 1, copy_id := 1, library_id := 1, loan_date := "2026-10-12",
    due_date := "2026-10-26", return_date := none, renewals_count := 0, status := "aberto" }

def wdb4 : DB :=
  { libraries := [], users := [wu1], books := [], loans := [wloan4], audit_logs := []
    copies := [{ id := 1, book_id := 1, library_id := 1, code := "EX1", status := "emprestado" }]
    nextLibraryId := 1, nextUserId := 2, nextBookId := 1, nextCopyId := 2, nextLoanId := 2 }

/-- Witness for C4: a concrete return closes the loan, stamps the return
date, and frees the copy. -/
theorem return_state_transition_witness :
    (confirmReturn wdb4 1 ⟨2026, 10, 20, 8, 0, 0, 0⟩ 9 "ts1").map (fun r =>
        (r.1.loans.map (fun l => (l.status, l.return_date)),
         r.1.copies.map (fun c => c.status))) =
      some ([("devolvido", some "2026-10-20 08:00:00")], ["disponivel"]) := by
  obtain ⟨db', msg, hEq, hL, hC, _⟩ :=
    return_state_transition wdb4 1 ⟨2026, 10, 20, 8, 0, 0, 0⟩ 9 "ts1" wloan4
      ⟨2026, 10, 26, 0, 0, 0, 0⟩ rfl rfl (by decide)
  rw [hEq, Option.map_some', hL, hC]
  rfl

def wu8 : UserRow :=
  { id := 1, name := "Ana", email := some "ana@x", document := none, password := none,
    role := "leitor", library_id := some 1, active := 1, lgpd_consent := 1,
    blocked_until := none }

def wdb8 : DB :=
  { libraries := [], users := [wu8], books := [], copies := [], loans := [], audit_logs := []
    nextLibraryId := 1, nextUserId := 2, nextBookId := 1, nextCopyId := 1, nextLoanId := 1 }

/-- Witness for C8 at a concrete reader with the four conditions evaluated in
reversed order. -/
theorem decision_order_independent_witness :
    true = ([cond_capacity wdb8 1, cond_no_overdue wdb8 1 "2026-10-12",
             cond_not_blocked wu8 "2026-10-12", cond_active wu8].all id) :=
  decision_order_independent wdb8 1 "2026-10-12" wu8 true "Elegível" rfl (by decide)
    _ (by decide)

def wdb6 : DB :=
  { libraries := [], users := [wu1], books := [], loans := [], audit_logs := []
    copies := [{ id := 1, book_id := 1, library_id := 1, code := "EX1", status := "manutencao" }]
    nextLibraryId := 1, nextUserId := 2, nextBookId := 1, nextCopyId := 2, nextLoanId := 1 }

/-- Witness for the amended C6: even a copy under maintenance is overwritten
to on-loan by an accepted creation. -/
theorem copy_overwrite_unconditional_witness :
    (confirmLoan wdb6 1 1 "EX1" 1 9 ⟨2026, 10, 12, 14, 30, 5, 0⟩ "ts0").map (fun r =>
        (r.2.1, r.1.copies.map (fun c => c.status))) =
      some (true, ["emprestado"]) := by
  obtain ⟨db', hEq, _, hC⟩ :=
    copy_overwrite_unconditional wdb6 1 1 "EX1" 1 9 ⟨2026, 10, 12, 14, 30, 5, 0⟩ "ts0"
      "Elegível" (by decide)
  rw [hEq, Option.map_some', hC]
  rfl

def wdb7 : DB :=
  { libraries := [], users := [wu1], books := [], loans := [], audit_logs := []
    copies := [{ id := 1, book_id := 1, library_id := 1, code := "EX1", status := "disponivel" }]
    nextLibraryId := 1, nextUserId := 2, nextBookId := 1, nextCopyId := 2, nextLoanId := 1 }

/-- Witness for the amended C7: a concrete accepted loan creation appends
exactly its audit entry. -/
theorem audit_coverage_witness :
    (confirmLoan wdb7 1 1 "EX1" 1 9 ⟨2026, 10, 12, 14, 30, 5, 0⟩ "ts0").map
        (fun r => r.1.audit_logs) =
      some (wdb7.audit_logs ++ [⟨"loan_create", 9, loanCreateDetail "EX1" 1, "ts0"⟩]) :=
  audit_coverage.2.2.2.2.2.1 wdb7 1 1 "EX1" 1 9 ⟨2026, 10, 12, 14, 30, 5, 0⟩ "ts0"
    "Elegível" (by decide)

end SGBC
